import Mathlib

/-!
Verification of the okabe LIFX protocol client against its specification.

The definitions below are a shallow embedding of the Python sources
`src/okabe/tools/lifx/message.py`, `src/okabe/tools/lifx/lifx.py` and
`src/okabe/tools/lifx/packet.py`.  Byte strings are modelled as `List Nat`
(each element one byte), Python `struct.pack` calls become `Option`-valued
functions (`none` models a raised `struct.error`), and Python exceptions in
general become `Option`/`Except` failure values.
-/

namespace Okabe

/-! ## struct.pack / struct.unpack primitives

`struct.pack` with an unsigned format code raises `struct.error` when the
value is out of range; otherwise it emits the little-endian bytes. -/

/-- Model of `struct.pack("<B", v)` for a nonnegative Python int `v`. -/
def packU8 (v : Nat) : Option (List Nat) :=
  if v < 256 then some [v] else none

/-- Model of `struct.pack("<H", v)` for a nonnegative Python int `v`. -/
def packU16 (v : Nat) : Option (List Nat) :=
  if v < 65536 then some [v % 256, v / 256] else none

/-- Model of `struct.pack("<I", v)` for a nonnegative Python int `v`. -/
def packU32 (v : Nat) : Option (List Nat) :=
  if v < 4294967296 then
    some [v % 256, v / 256 % 256, v / 65536 % 256, v / 16777216]
  else none

/-- Model of `struct.pack("<Q", v)` for a nonnegative Python int `v`. -/
def packU64 (v : Nat) : Option (List Nat) :=
  if v < 18446744073709551616 then
    some [v % 256, v / 256 % 256, v / 65536 % 256, v / 16777216 % 256,
          v / 4294967296 % 256, v / 1099511627776 % 256,
          v / 281474976710656 % 256, v / 72057594037927936]
  else none

/-! ## `int_to_bits` and the bit-field composition

`int_to_bits(value, size)` in `message.py` is `format(value, f"0>{size}b")`:
the binary digits of `value`, left-padded with zeros to at least `size`
characters (longer when `value` needs more than `size` bits).  The headers
concatenate such strings and re-parse them with `int(_, 2)`; numerically the
result of parsing `s₁ ++ s₂` is `int(s₁,2) * 2^len(s₂) + int(s₂,2)`, so only
the *lengths* of the later strings matter.  We model the length of the
binary-digit string and compute the parsed value directly. -/

/-- Number of binary digits of `n` (0 for `n = 0`), computed with explicit
fuel so that it reduces in the kernel; `bitDigitsAux n n` is exact because
the argument at least halves each step. -/
def bitDigitsAux : Nat → Nat → Nat
  | 0, _ => 0
  | fuel + 1, n => if n = 0 then 0 else bitDigitsAux fuel (n / 2) + 1

/-- Length of `format(v, "b")` in Python: `"0"` has length 1. -/
def binStrLen (v : Nat) : Nat :=
  if v = 0 then 1 else bitDigitsAux v v

/-- Length of `int_to_bits(v, size)`, i.e. of `format(v, f"0>{size}b")`. -/
def bitLen (v size : Nat) : Nat :=
  max size (binStrLen v)

/-- Value of `int(int_to_bits(origin,2) + int_to_bits(tagged,1) +
int_to_bits(addressable,1) + int_to_bits(protocol,12), 2)` from
`FrameHeader.__bytes__`. -/
def frameHeaderFlagsVal (origin tagged addressable protocol : Nat) : Nat :=
  ((origin * 2 ^ bitLen tagged 1 + tagged) * 2 ^ bitLen addressable 1
      + addressable) * 2 ^ bitLen protocol 12 + protocol

/-- Value of `int(int_to_bits(reserved,6) + int_to_bits(ack,1) +
int_to_bits(res,1), 2)` (with `reserved = 0`) from
`FrameAddress.__bytes__`. -/
def frameAddressFlagsVal (res ack : Nat) : Nat :=
  (0 * 2 ^ bitLen ack 1 + ack) * 2 ^ bitLen res 1 + res

/-! ## The three header structures -/

/-- `HEADER_SIZE` from `message.py`. -/
def HEADER_SIZE : Nat := 36

/-- Model of `FrameHeader.__bytes__`: size (u16) ‖ flags (u16) ‖ source
(u32).  `none` models a `struct.error` raised by one of the packs. -/
def frameHeaderBytes (payload_size source tagged protocol addressable origin : Nat) :
    Option (List Nat) :=
  match packU16 (HEADER_SIZE + payload_size),
      packU16 (frameHeaderFlagsVal origin tagged addressable protocol),
      packU32 source with
  | some sz, some fl, some src => some (sz ++ fl ++ src)
  | _, _, _ => none

/-- The `target` field of `FrameAddress` is `Union[int, bytes]`. -/
abbrev Target : Type := Nat ⊕ List Nat

/-- Model of `FrameAddress.convert_mac_to_bytes`: the int `0` becomes six
zero bytes, and a bytes value is returned unchanged.  A *nonzero* int is
returned as-is by the Python code; the caller immediately concatenates the
result with bytes, which raises `TypeError` — modelled here as `none`. -/
def convert_mac_to_bytes : Target → Option (List Nat)
  | Sum.inl 0 => some (List.replicate 6 0)
  | Sum.inl (_ + 1) => none
  | Sum.inr bs => some bs

/-- Model of `FrameAddress.__bytes__`: mac (6 bytes as produced by
`convert_mac_to_bytes`) ‖ u16 0 ‖ u32 0 ‖ u16 0 ‖ flags (u8) ‖ sequence
(u8). -/
def frameAddressBytes (target : Target) (res ack sequence : Nat) :
    Option (List Nat) :=
  match convert_mac_to_bytes target, packU16 0, packU32 0, packU16 0,
      packU8 (frameAddressFlagsVal res ack), packU8 sequence with
  | some mac, some z1, some r1, some r2, some fl, some sq =>
    some (mac ++ z1 ++ r1 ++ r2 ++ fl ++ sq)
  | _, _, _, _, _, _ => none

/-- Model of `ProtocolHeader.__bytes__`: u64 0 ‖ pkt_type (u16) ‖ u16 0. -/
def protocolHeaderBytes (pkt_type : Nat) : Option (List Nat) :=
  match packU64 0, packU16 pkt_type, packU16 0 with
  | some r1, some t, some r2 => some (r1 ++ t ++ r2)
  | _, _, _ => none

/-! ## Message -/

/-- Model of the `Message` class: a header byte string plus opaque payload
bytes. -/
structure Message where
  header : List Nat
  packet_data : List Nat
deriving DecidableEq, Repr

/-- Model of `Message.pack`: builds the 36-byte header from the three
sub-structures.  `none` models any exception raised while encoding. -/
def Message.pack (pkt_type source tagged res ack sequence : Nat)
    (target : Target) (packet_data : List Nat) : Option Message :=
  match frameHeaderBytes packet_data.length source tagged 1024 1 0,
      frameAddressBytes target res ack sequence,
      protocolHeaderBytes pkt_type with
  | some fh, some fa, some ph => some ⟨fh ++ fa ++ ph, packet_data⟩
  | _, _, _ => none

/-- Model of `Message.unpack`: `none` models the raised `IncompleteHeader`
when fewer than 36 bytes are supplied. -/
def Message.unpack (data : List Nat) : Option Message :=
  if data.length < 36 then none
  else some ⟨data.take 36, data.drop 36⟩

/-- Model of `Message.packed_msg`. -/
def Message.packed_msg (m : Message) : List Nat :=
  m.header ++ m.packet_data

/-- Byte `i` of a byte string (`l[i]` in Python; indices used by the
accessors below are always in range for a 36-byte header). -/
def byteAt (l : List Nat) (i : Nat) : Nat := l.getD i 0

/-- Model of `Message.size`: `struct.unpack("<H", self[0:2])[0]`. -/
def Message.size (m : Message) : Nat :=
  byteAt m.header 0 + 256 * byteAt m.header 1

/-- Model of `Message.protocol`: low 12 bits of the u16 at bytes 2–3. -/
def Message.protocol (m : Message) : Nat :=
  (byteAt m.header 2 + 256 * byteAt m.header 3) % 4096

/-- Model of `Message.addressable`: `(self[3] >> 4) & 1 != 0`. -/
def Message.addressable (m : Message) : Bool :=
  (byteAt m.header 3 >>> 4) &&& 1 != 0

/-- Model of `Message.tagged`: `(self[3] >> 5) & 1 != 0`. -/
def Message.tagged (m : Message) : Bool :=
  (byteAt m.header 3 >>> 5) &&& 1 != 0

/-- Model of `Message.source`: `struct.unpack("<I", self[4:8])[0]`. -/
def Message.source (m : Message) : Nat :=
  byteAt m.header 4 + 256 * byteAt m.header 5
    + 65536 * byteAt m.header 6 + 16777216 * byteAt m.header 7

/-- Model of `Message.target_hex`: `self[8:16][:6]`. -/
def Message.target_hex (m : Message) : List Nat :=
  ((m.header.drop 8).take 8).take 6

/-- One lowercase hex digit, as produced by `binascii.hexlify`. -/
def hexDigit (n : Nat) : Char :=
  if n < 10 then Char.ofNat (48 + n) else Char.ofNat (87 + n)

/-- Model of `Message.target`: `binascii.hexlify(self[8:16][:6]).decode()`. -/
def Message.target (m : Message) : String :=
  String.mk (m.target_hex.flatMap fun b => [hexDigit (b / 16), hexDigit (b % 16)])

/-- Model of `Message.response_required`: `self[22] & 1 != 0`. -/
def Message.response_required (m : Message) : Bool :=
  byteAt m.header 22 &&& 1 != 0

/-- Model of `Message.ack_required`: `(self[22] >> 1) & 1 != 0`. -/
def Message.ack_required (m : Message) : Bool :=
  (byteAt m.header 22 >>> 1) &&& 1 != 0

/-- Model of `Message.sequence`: `self[23]`. -/
def Message.sequence (m : Message) : Nat :=
  byteAt m.header 23

/-- Model of `Message.pkt_type`: `struct.unpack("<H", self[32:34])[0]`. -/
def Message.pkt_type (m : Message) : Nat :=
  byteAt m.header 32 + 256 * byteAt m.header 33

/-! ## Packet registry (`packet.py`)

`PACKETS = {21: SetPower, 3: StateService}`.  `SetPower.__init__` stores
`data[0:2]` as `level`; `StateService.__init__` stores `data`. -/

/-- The packet classes that appear in the `PACKETS` registry, with the data
their constructors store. -/
inductive Packet where
  | setPower (level : List Nat)
  | stateService (bs : List Nat)
deriving DecidableEq, Repr

/-- Model of the `Message.packet` property: a registry lookup on
`pkt_type`, constructing the registered class over the payload bytes.
`Except.error pt` models the raised `UnsupportedPacketType(f"{pt}")`
(the `Message` itself is immutable here, and in the source the failure
happens before the `_packet` cache is written, so the message's header
accessors and payload are unaffected by a failed lookup). -/
def Message.packet (m : Message) : Except Nat Packet :=
  if m.pkt_type = 21 then Except.ok (Packet.setPower (m.packet_data.take 2))
  else if m.pkt_type = 3 then Except.ok (Packet.stateService m.packet_data)
  else Except.error m.pkt_type

/-! ## Color-state codec (`lifx.py`)

Byte values are `List Nat`; Python `str` is modelled as Lean `String`
(Python strings holding lone surrogates cannot be UTF-8 encoded and are
outside the model, exactly as `label.encode("utf-8")` would raise on
them). -/

/-- UTF-8 encoding of one code point, as `str.encode("utf-8")` produces. -/
def utf8EncodeCp (c : Nat) : List Nat :=
  if c < 128 then [c]
  else if c < 2048 then [192 + c / 64, 128 + c % 64]
  else if c < 65536 then [224 + c / 4096, 128 + c / 64 % 64, 128 + c % 64]
  else [240 + c / 262144, 128 + c / 4096 % 64, 128 + c / 64 % 64, 128 + c % 64]

/-- Model of `label.encode("utf-8")`. -/
def strEncodeUtf8 (s : String) : List Nat :=
  s.data.flatMap fun c => utf8EncodeCp c.toNat

/-- Strict UTF-8 decoding to code points, `none` modelling a raised
`UnicodeDecodeError` (continuation-byte, overlong, surrogate and
out-of-range forms are all rejected, as Python's strict codec does). -/
def utf8DecodeCps : List Nat → Option (List Nat)
  | [] => some []
  | b0 :: rest =>
    if b0 < 128 then (utf8DecodeCps rest).map (b0 :: ·)
    else if b0 < 194 then none
    else if b0 < 224 then
      match rest with
      | b1 :: rest1 =>
        if b1 / 64 = 2 then
          (utf8DecodeCps rest1).map (((b0 - 192) * 64 + (b1 - 128)) :: ·)
        else none
      | [] => none
    else if b0 < 240 then
      match rest with
      | b1 :: b2 :: rest2 =>
        if b1 / 64 = 2 ∧ b2 / 64 = 2 then
          let cp := (b0 - 224) * 4096 + (b1 - 128) * 64 + (b2 - 128)
          if cp < 2048 ∨ (55296 ≤ cp ∧ cp < 57344) then none
          else (utf8DecodeCps rest2).map (cp :: ·)
        else none
      | _ => none
    else if b0 < 245 then
      match rest with
      | b1 :: b2 :: b3 :: rest3 =>
        if b1 / 64 = 2 ∧ b2 / 64 = 2 ∧ b3 / 64 = 2 then
          let cp := (b0 - 240) * 262144 + (b1 - 128) * 4096
              + (b2 - 128) * 64 + (b3 - 128)
          if cp < 65536 ∨ 1114112 ≤ cp then none
          else (utf8DecodeCps rest3).map (cp :: ·)
        else none
      | _ => none
    else none

/-- Model of `bytes.decode("utf-8")`. -/
def bytesDecodeUtf8 (bs : List Nat) : Option String :=
  (utf8DecodeCps bs).map fun cps => String.mk (cps.map Char.ofNat)

/-- The dictionary returned by `decode_color_state`. -/
structure ColorState where
  hue : Nat
  saturation : Nat
  brightness : Nat
  kelvin : Nat
  power : Nat
  label : String
deriving DecidableEq, Repr

/-- The distinct exceptions `decode_color_state` can raise. -/
inductive ColorDecodeErr where
  | valueError
  | structError
  | unicodeError
deriving DecidableEq, Repr

/-- Model of `decode_color_state`:
`ValueError` when fewer than 52 bytes are supplied; otherwise
`struct.unpack("<HHHH2xH32s8x", data)` which raises `struct.error` unless
the buffer is exactly `calcsize = 52` bytes; then the label is the bytes
before the first zero byte (`label_bytes.split(b"\x00")[0]`), decoded as
UTF-8. -/
def decode_color_state (data : List Nat) : Except ColorDecodeErr ColorState :=
  if data.length < 52 then Except.error ColorDecodeErr.valueError
  else if 52 < data.length then Except.error ColorDecodeErr.structError
  else
    let hue := byteAt data 0 + 256 * byteAt data 1
    let saturation := byteAt data 2 + 256 * byteAt data 3
    let brightness := byteAt data 4 + 256 * byteAt data 5
    let kelvin := byteAt data 6 + 256 * byteAt data 7
    let power := byteAt data 10 + 256 * byteAt data 11
    let label_bytes := (data.drop 12).take 32
    match bytesDecodeUtf8 (label_bytes.takeWhile fun b => b ≠ 0) with
    | some label => Except.ok ⟨hue, saturation, brightness, kelvin, power, label⟩
    | none => Except.error ColorDecodeErr.unicodeError

/-- Model of `struct.pack`'s `32s` code applied to `encoded_label` (which
`ljust` has already padded; `32s` itself truncates or zero-pads to exactly
32 bytes). -/
def pack32s (bs : List Nat) : List Nat :=
  bs.take 32 ++ List.replicate (32 - bs.length) 0

/-- Model of `encode_color_state`: the label is UTF-8 encoded, truncated to
31 bytes when longer, zero-padded to 32 (`ljust(32, b"\x00")`); then
`struct.pack("<HHHHH2xH32s8x", hue, saturation, brightness, kelvin, 0,
power_value, encoded_label)` — note the format string has *five* `H`
fields before the `2x` padding, the fifth receiving the literal `0`. -/
def encode_color_state (hue saturation brightness kelvin : Nat) (power : Bool)
    (label : String) : Option (List Nat) :=
  let encoded0 := strEncodeUtf8 label
  let encoded1 := if encoded0.length > 31 then encoded0.take 31 else encoded0
  let encoded_label := encoded1 ++ List.replicate (32 - encoded1.length) 0
  let power_value : Nat := if power then 65535 else 0
  match packU16 hue, packU16 saturation, packU16 brightness, packU16 kelvin,
      packU16 0, packU16 power_value with
  | some h, some s, some b, some k, some z, some p =>
    some (h ++ s ++ b ++ k ++ z ++ [0, 0] ++ p
      ++ pack32s encoded_label ++ List.replicate 8 0)
  | _, _, _, _, _, _ => none

/-! ## `Light.set_color` payload (`lifx.py`)

`hue`, `saturation` and `brightness` are Python floats; they are modelled
as rationals (the arithmetic below is exact at every input used in the
theorems).  Python's `round` rounds halves to even, `int()` truncates
toward zero, and `%` on ints returns a value with the sign of the
modulus. -/

/-- Python `round` on a rational: nearest integer, halves to even. -/
def pyRound (q : ℚ) : ℤ :=
  let f := ⌊q⌋
  if q - f < 1 / 2 then f
  else if 1 / 2 < q - f then f + 1
  else if f % 2 = 0 then f else f + 1

/-- Python `int()` on a rational: truncation toward zero. -/
def pyInt (q : ℚ) : ℤ :=
  if 0 ≤ q then ⌊q⌋ else -⌊-q⌋

/-- Model of `struct.pack("<H", v)` for a Python int `v` that may be
negative. -/
def packI16 (v : ℤ) : Option (List Nat) :=
  if 0 ≤ v ∧ v < 65536 then some [v.toNat % 256, v.toNat / 256] else none

/-- Model of the `packet_data` built by `Light.set_color`:
`struct.pack("<BHHHHI", 0, int(round(0x10000 * hue) / 360) % 0x10000,
int(round(0xFFFF * saturation)), int(round(0xFFFF * brightness)), kelvin,
duration)`.  Note the parenthesisation in the source: the hue is rounded
*before* the division by 360, and the quotient is truncated by `int()`. -/
def set_color_payload (hue saturation brightness : ℚ) (kelvin duration : Nat) :
    Option (List Nat) :=
  match packU8 0,
      packI16 ((pyInt ((pyRound (65536 * hue) : ℚ) / 360)) % 65536),
      packI16 (pyRound (65535 * saturation)),
      packI16 (pyRound (65535 * brightness)),
      packU16 kelvin, packU32 duration with
  | some b, some h, some s, some br, some k, some d =>
    some (b ++ h ++ s ++ br ++ k ++ d)
  | _, _, _, _, _, _ => none

/-! ## Socket lifecycle of `Lifx.send` (`lifx.py`)

`Lifx.send` calls `create_socket()` *once*, then for every broadcast
address whose exploded form starts with `"192"` it calls
`sock.sendto(...)`, `Lifx.read(sock)` (one `recvfrom`) and `sock.close()`
— on the same socket object.  We record that call sequence as a trace of
events on socket ids (the single socket is id 0). -/

/-- Socket-API events performed by `Lifx.send`, tagged with the id of the
socket they act on. -/
inductive SockEvent where
  | create (sid : Nat)
  | sendto (sid : Nat) (addr : String)
  | recv (sid : Nat)
  | close (sid : Nat)
deriving DecidableEq, Repr

/-- Model of `addr.exploded.startswith("192")`: the first three characters
are `"192"`. -/
def startsWith192 (a : String) : Bool :=
  a.data.take 3 = ['1', '9', '2']

/-- The socket-event trace of `Lifx.send`, given the exploded broadcast
addresses returned by `get_broadcast_addresses()`. -/
def sendTrace (addrs : List String) : List SockEvent :=
  SockEvent.create 0 ::
    (addrs.filter startsWith192).flatMap fun a =>
      [SockEvent.sendto 0 a, SockEvent.recv 0, SockEvent.close 0]

/-- The temporal property claimed of `Lifx.send`: no `sendto` ever happens
on a socket that an earlier event closed. -/
def NoSendAfterClose (tr : List SockEvent) : Prop :=
  ∀ i j s a, i < j → tr.get? i = some (SockEvent.close s) →
    tr.get? j = some (SockEvent.sendto s a) → False

/-! ## Helper lemmas -/

instance {ε : Type u} {α : Type v} [DecidableEq ε] [DecidableEq α] :
    DecidableEq (Except ε α) := fun x y =>
  match x, y with
  | .error a, .error b =>
    if h : a = b then isTrue (by rw [h]) else isFalse (by simp [h])
  | .ok a, .ok b =>
    if h : a = b then isTrue (by rw [h]) else isFalse (by simp [h])
  | .error _, .ok _ => isFalse (by simp)
  | .ok _, .error _ => isFalse (by simp)

theorem packU8_eq {v : Nat} (h : v < 256) : packU8 v = some [v] := by
  simp [packU8, h]

theorem packU16_eq {v : Nat} (h : v < 65536) :
    packU16 v = some [v % 256, v / 256] := by
  simp [packU16, h]

theorem packU32_eq {v : Nat} (h : v < 4294967296) :
    packU32 v = some [v % 256, v / 256 % 256, v / 65536 % 256, v / 16777216] := by
  simp [packU32, h]

/-- The header bytes produced by `Message.pack` on inputs in the wire
format's ranges: size field, flags, source, mac, the reserved regions, the
address flags byte `2*ack + res`, the sequence byte and the packet type. -/
theorem pack_valid (pkt_type source tagged res ack sequence : Nat)
    (target : Target) (pd mac : List Nat)
    (hpt : pkt_type < 65536) (hsrc : source < 4294967296)
    (htag : tagged ≤ 1) (hres : res ≤ 1) (hack : ack ≤ 1)
    (hseq : sequence < 256)
    (hmac : convert_mac_to_bytes target = some mac)
    (hlen : 36 + pd.length < 65536) :
    Message.pack pkt_type source tagged res ack sequence target pd =
      some ⟨[(36 + pd.length) % 256, (36 + pd.length) / 256,
             frameHeaderFlagsVal 0 tagged 1 1024 % 256,
             frameHeaderFlagsVal 0 tagged 1 1024 / 256,
             source % 256, source / 256 % 256, source / 65536 % 256,
             source / 16777216]
          ++ mac
          ++ [0, 0, 0, 0, 0, 0, 0, 0, 2 * ack + res, sequence,
              0, 0, 0, 0, 0, 0, 0, 0, pkt_type % 256, pkt_type / 256, 0, 0],
            pd⟩ := by
  have hfl : frameHeaderFlagsVal 0 tagged 1 1024 < 65536 := by
    interval_cases tagged <;> decide
  have hafl : frameAddressFlagsVal res ack = 2 * ack + res := by
    interval_cases res <;> interval_cases ack <;> decide
  unfold Message.pack frameHeaderBytes frameAddressBytes protocolHeaderBytes
    HEADER_SIZE
  rw [packU16_eq hlen, packU16_eq hfl, packU32_eq hsrc, hmac, hafl,
    packU8_eq (by omega), packU8_eq hseq, packU16_eq hpt]
  simp [packU16, packU32, packU64]

/-- A `Message` with a 36-byte header unpacks from its own packed bytes
unchanged. -/
theorem unpack_packed (m : Message) (h : m.header.length = 36) :
    Message.unpack m.packed_msg = some m := by
  unfold Message.unpack Message.packed_msg
  rw [if_neg (by simp [h]), List.take_left' h, List.drop_left' h]

/-- `Message.pack` fails whenever `36 + len(payload)` does not fit the u16
total-size field (`struct.pack("<H", ...)` raises `struct.error`). -/
theorem pack_fails_oversized_payload
    (pkt_type source tagged res ack sequence : Nat) (target : Target)
    (pd : List Nat) (h : 65536 ≤ 36 + pd.length) :
    Message.pack pkt_type source tagged res ack sequence target pd = none := by
  have h2 : packU16 (HEADER_SIZE + pd.length) = none := by
    unfold packU16 HEADER_SIZE
    rw [if_neg (by omega)]
  unfold Message.pack frameHeaderBytes
  rw [h2]

/-- A target that is the broadcast sentinel or six raw bytes converts to a
6-byte mac. -/
theorem convert_mac_valid (target : Target)
    (htgt : target = Sum.inl 0 ∨ ∃ bs, target = Sum.inr bs ∧ bs.length = 6) :
    ∃ mac, convert_mac_to_bytes target = some mac ∧ mac.length = 6 := by
  rcases htgt with rfl | ⟨bs, rfl, hbs⟩
  · exact ⟨List.replicate 6 0, rfl, by simp⟩
  · exact ⟨bs, rfl, hbs⟩

/-! ## Claims -/

/-- **C5.** `Message.unpack` fails with `IncompleteHeader` (modelled as
`none`) exactly when fewer than 36 bytes are supplied; otherwise the
resulting message's header is the first 36 bytes and its payload the
remainder. -/
theorem unpack_incomplete_iff (data : List Nat) :
    (Message.unpack data = none ↔ data.length < 36) ∧
    (36 ≤ data.length →
      Message.unpack data = some ⟨data.take 36, data.drop 36⟩) := by
  constructor
  · unfold Message.unpack
    split <;> simp_all
  · intro h
    unfold Message.unpack
    rw [if_neg (by omega)]

/-- Witness for C5: a 10-byte buffer raises `IncompleteHeader`, and a
40-byte buffer splits into the 36-byte header and the 4-byte payload. -/
theorem unpack_incomplete_iff_witness :
    Message.unpack (List.replicate 10 0) = none ∧
    Message.unpack (List.replicate 40 2) =
      some ⟨(List.replicate 40 2).take 36, (List.replicate 40 2).drop 36⟩ :=
  ⟨(unpack_incomplete_iff (List.replicate 10 0)).1.mpr (by decide),
   (unpack_incomplete_iff (List.replicate 40 2)).2 (by decide)⟩

/-- **C9.** For a `Message` whose `pkt_type` has no entry in the `PACKETS`
registry (the registry holds exactly 21 and 3), the `packet` view fails
with `UnsupportedPacketType` carrying that `pkt_type`.  The message itself
is immutable in this embedding, so its header accessors and payload are
unchanged by the failure. -/
theorem packet_unsupported (m : Message)
    (h21 : m.pkt_type ≠ 21) (h3 : m.pkt_type ≠ 3) :
    Message.packet m = Except.error m.pkt_type := by
  unfold Message.packet
  rw [if_neg h21, if_neg h3]

/-- Witness for C9: a message whose header bytes 32–33 decode to
`pkt_type = 999` yields `UnsupportedPacketType(999)`. -/
theorem packet_unsupported_witness :
    Message.packet ⟨List.replicate 32 0 ++ [231, 3, 0, 0], [5]⟩ =
      Except.error 999 :=
  (packet_unsupported ⟨List.replicate 32 0 ++ [231, 3, 0, 0], [5]⟩
    (by decide) (by decide)).trans (by decide)

/-- **C10.** `decode_color_state` succeeds only on exactly 52 bytes: fewer
than 52 raise the documented `ValueError`, more than 52 pass the length
check but raise `struct.error` from `struct.unpack`. -/
theorem decode_color_state_length_spec (data : List Nat) :
    (data.length < 52 →
      decode_color_state data = Except.error ColorDecodeErr.valueError) ∧
    (52 < data.length →
      decode_color_state data = Except.error ColorDecodeErr.structError) ∧
    (∀ st, decode_color_state data = Except.ok st → data.length = 52) := by
  refine ⟨fun h => ?_, fun h => ?_, fun st h => ?_⟩
  · unfold decode_color_state
    rw [if_pos h]
  · unfold decode_color_state
    rw [if_neg (by omega), if_pos h]
  · by_contra hne
    unfold decode_color_state at h
    rcases Nat.lt_or_ge data.length 52 with hlt | hge
    · rw [if_pos hlt] at h
      exact absurd h (by simp)
    · have h52 : 52 < data.length := by omega
      rw [if_neg (by omega), if_pos h52] at h
      exact absurd h (by simp)

/-- Witness for C10: 10 bytes raise `ValueError`, 53 bytes raise
`struct.error`. -/
theorem decode_color_state_length_spec_witness :
    decode_color_state (List.replicate 10 0) =
      Except.error ColorDecodeErr.valueError ∧
    decode_color_state (List.replicate 53 0) =
      Except.error ColorDecodeErr.structError :=
  ⟨(decode_color_state_length_spec (List.replicate 10 0)).1 (by decide),
   (decode_color_state_length_spec (List.replicate 53 0)).2.1 (by decide)⟩

/-- **C3 (code bug).** `encode_color_state` does *not* emit 52 bytes: the
format string `"<HHHHH2xH32s8x"` contains a fifth `H` (fed the literal
`0`) in addition to the two `x` pad bytes, so the output is 54 bytes with
four zero bytes between `kelvin` and `power` instead of the documented
two-byte reserved region. -/
theorem encode_color_state_emits_54_bytes :
    encode_color_state 1 2 3 4 true "" =
      some ([1, 0, 2, 0, 3, 0, 4, 0, 0, 0, 0, 0, 255, 255]
        ++ List.replicate 32 0 ++ List.replicate 8 0) ∧
    Option.map List.length (encode_color_state 1 2 3 4 true "") = some 54 := by
  constructor <;> decide

/-- **C2 (code bug).** Because `encode_color_state` emits 54 bytes while
`decode_color_state` requires exactly 52, the decode of an encode *always*
raises `struct.error`; no field is ever reproduced. -/
theorem decode_of_encode_color_state_errors :
    encode_color_state 120 0 0 3500 true "" =
      some ([120, 0, 0, 0, 0, 0, 172, 13, 0, 0, 0, 0, 255, 255]
        ++ List.replicate 32 0 ++ List.replicate 8 0) ∧
    decode_color_state ([120, 0, 0, 0, 0, 0, 172, 13, 0, 0, 0, 0, 255, 255]
        ++ List.replicate 32 0 ++ List.replicate 8 0) =
      Except.error ColorDecodeErr.structError := by
  constructor <;> decide

/-- **C8 (code bug).** `Lifx.send` creates one socket before the loop and
closes it at the end of every iteration, so with two qualifying broadcast
addresses the second iteration's `sendto` happens on the socket the first
iteration already closed — the claimed fresh-socket-per-iteration property
fails. -/
theorem send_trace_sends_on_closed_socket :
    ¬ NoSendAfterClose (sendTrace ["192.168.1.255", "192.168.0.255"]) := by
  intro h
  exact h 3 4 0 "192.168.0.255" (by decide) (by decide) (by decide)

/-- **C1 counterexample.** The claim admits payloads of any length, but
`struct.pack("<H", 36 + payload_size)` raises `struct.error` once the
total size no longer fits a u16: with a 65500-byte payload `Message.pack`
fails, so no round-trip message exists. -/
theorem pack_roundtrip_fails_oversized :
    Message.pack 2 2 1 1 0 0 (Sum.inl 0) (List.replicate 65500 0) = none :=
  pack_fails_oversized_payload 2 2 1 1 0 0 (Sum.inl 0) _
    (by rw [List.length_replicate])

/-- **C1 (amended).** For pkt_type a u16, source a u32, tagged/res/ack
single bits, sequence a u8, target the broadcast sentinel `0` or a 6-byte
identifier, and a payload short enough that `36 + len` fits the u16 size
field, unpacking the packed bytes of `Message.pack` yields a message that
agrees with the packed one on every accessor field and on the payload. -/
theorem pack_unpack_roundtrip (pkt_type source tagged res ack sequence : Nat)
    (target : Target) (pd : List Nat)
    (hpt : pkt_type < 65536) (hsrc : source < 4294967296)
    (htag : tagged ≤ 1) (hres : res ≤ 1) (hack : ack ≤ 1)
    (hseq : sequence < 256)
    (htgt : target = Sum.inl 0 ∨ ∃ bs, target = Sum.inr bs ∧ bs.length = 6)
    (hlen : 36 + pd.length < 65536) :
    ∃ m m', Message.pack pkt_type source tagged res ack sequence target pd
        = some m ∧
      Message.unpack m.packed_msg = some m' ∧
      m'.size = m.size ∧ m'.protocol = m.protocol ∧
      m'.addressable = m.addressable ∧ m'.tagged = m.tagged ∧
      m'.source = m.source ∧ m'.target = m.target ∧
      m'.response_required = m.response_required ∧
      m'.ack_required = m.ack_required ∧ m'.sequence = m.sequence ∧
      m'.pkt_type = m.pkt_type ∧ m'.packet_data = m.packet_data := by
  obtain ⟨mac, hmac, hmlen⟩ := convert_mac_valid target htgt
  refine ⟨_, _,
    pack_valid pkt_type source tagged res ack sequence target pd mac
      hpt hsrc htag hres hack hseq hmac hlen,
    unpack_packed _ ?_, rfl, rfl, rfl, rfl, rfl, rfl, rfl, rfl, rfl, rfl, rfl⟩
  simp [hmlen]

/-- Witness for the amended C1 at a concrete input. -/
theorem pack_unpack_roundtrip_witness :
    ∃ m m', Message.pack 2 3 1 0 1 7 (Sum.inr [1, 2, 3, 4, 5, 6]) [9, 8, 7]
        = some m ∧
      Message.unpack m.packed_msg = some m' ∧
      m'.size = m.size ∧ m'.protocol = m.protocol ∧
      m'.addressable = m.addressable ∧ m'.tagged = m.tagged ∧
      m'.source = m.source ∧ m'.target = m.target ∧
      m'.response_required = m.response_required ∧
      m'.ack_required = m.ack_required ∧ m'.sequence = m.sequence ∧
      m'.pkt_type = m.pkt_type ∧ m'.packet_data = m.packet_data :=
  pack_unpack_roundtrip 2 3 1 0 1 7 (Sum.inr [1, 2, 3, 4, 5, 6]) [9, 8, 7]
    (by decide) (by decide) (by decide) (by decide) (by decide) (by decide)
    (Or.inr ⟨[1, 2, 3, 4, 5, 6], rfl, by decide⟩) (by decide)

/-- **C4 counterexample.** The claim quantifies over every payload, but
with a 65501-byte payload `Message.pack` raises `struct.error` while
encoding the u16 total-size field, so no message with a size accessor is
produced at all. -/
theorem pack_size_fails_oversized :
    Message.pack 2 2 0 0 0 0 (Sum.inl 0) (List.replicate 65501 1) = none :=
  pack_fails_oversized_payload 2 2 0 0 0 0 (Sum.inl 0) _
    (by rw [List.length_replicate]; omega)

/-- **C4 (amended).** For valid header fields and a payload with
`36 + len < 65536`, the packed message's `size` accessor equals
`36 + len`, and the encoded total-size field at header bytes 0–1 is its
little-endian u16 encoding. -/
theorem pack_size_field (pkt_type source tagged res ack sequence : Nat)
    (target : Target) (pd : List Nat)
    (hpt : pkt_type < 65536) (hsrc : source < 4294967296)
    (htag : tagged ≤ 1) (hres : res ≤ 1) (hack : ack ≤ 1)
    (hseq : sequence < 256)
    (htgt : target = Sum.inl 0 ∨ ∃ bs, target = Sum.inr bs ∧ bs.length = 6)
    (hlen : 36 + pd.length < 65536) :
    ∃ m, Message.pack pkt_type source tagged res ack sequence target pd
        = some m ∧
      m.size = 36 + pd.length ∧
      m.header.take 2 = [(36 + pd.length) % 256, (36 + pd.length) / 256] := by
  obtain ⟨mac, hmac, hmlen⟩ := convert_mac_valid target htgt
  refine ⟨_,
    pack_valid pkt_type source tagged res ack sequence target pd mac
      hpt hsrc htag hres hack hseq hmac hlen, ?_, ?_⟩
  · simp only [Message.size, byteAt, List.cons_append, List.getD_cons_zero,
      List.getD_cons_succ]
    omega
  · simp

/-- Witness for the amended C4 at a concrete input. -/
theorem pack_size_field_witness :
    ∃ m, Message.pack 20 2 0 0 0 0 (Sum.inl 0) [1, 2, 3, 4, 5] = some m ∧
      m.size = 36 + ([1, 2, 3, 4, 5] : List Nat).length ∧
      m.header.take 2 = [(36 + ([1, 2, 3, 4, 5] : List Nat).length) % 256,
        (36 + ([1, 2, 3, 4, 5] : List Nat).length) / 256] :=
  pack_size_field 20 2 0 0 0 0 (Sum.inl 0) [1, 2, 3, 4, 5]
    (by decide) (by decide) (by decide) (by decide) (by decide) (by decide)
    (Or.inl rfl) (by decide)

/-- **C7 counterexample.** `pack` is claimed never to fail for well-typed
arguments, `target: int or bytes` included — but for a *nonzero* int
target, `convert_mac_to_bytes` returns the int itself and the
concatenation with bytes in `FrameAddress.__bytes__` raises `TypeError`. -/
theorem pack_nonzero_int_target_fails :
    Message.pack 2 2 1 1 0 0 (Sum.inl 1) [] = none := by decide

/-- **C7 (amended).** `Message.pack` succeeds and yields a 36-byte header
whenever the fields are within the wire format's ranges and the target is
the broadcast sentinel `0` or six raw bytes. -/
theorem pack_succeeds_in_range (pkt_type source tagged res ack sequence : Nat)
    (target : Target) (pd : List Nat)
    (hpt : pkt_type < 65536) (hsrc : source < 4294967296)
    (htag : tagged ≤ 1) (hres : res ≤ 1) (hack : ack ≤ 1)
    (hseq : sequence < 256)
    (htgt : target = Sum.inl 0 ∨ ∃ bs, target = Sum.inr bs ∧ bs.length = 6)
    (hlen : 36 + pd.length < 65536) :
    ∃ m, Message.pack pkt_type source tagged res ack sequence target pd
        = some m ∧ m.header.length = 36 := by
  obtain ⟨mac, hmac, hmlen⟩ := convert_mac_valid target htgt
  refine ⟨_,
    pack_valid pkt_type source tagged res ack sequence target pd mac
      hpt hsrc htag hres hack hseq hmac hlen, ?_⟩
  simp [hmlen]

/-- Witness for the amended C7 at a concrete input. -/
theorem pack_succeeds_in_range_witness :
    ∃ m, Message.pack 2 2 1 1 0 0 (Sum.inl 0) [] = some m ∧
      m.header.length = 36 :=
  pack_succeeds_in_range 2 2 1 1 0 0 (Sum.inl 0) []
    (by decide) (by decide) (by decide) (by decide) (by decide) (by decide)
    (Or.inl rfl) (by decide)

/-! ## `set_color` rounding facts -/

theorem pyRound_nonneg {q : ℚ} (h : 0 ≤ q) : 0 ≤ pyRound q := by
  have h0 : 0 ≤ ⌊q⌋ := Int.floor_nonneg.mpr h
  unfold pyRound
  dsimp only
  split_ifs <;> omega

theorem pyRound_le {q : ℚ} {n : ℤ} (h : q ≤ (n : ℚ)) : pyRound q ≤ n := by
  have hfn : ⌊q⌋ ≤ n := by
    have h2 := Int.floor_mono h
    rwa [Int.floor_intCast] at h2
  unfold pyRound
  dsimp only
  split_ifs with h1 h2 h3
  · exact hfn
  · rcases lt_or_eq_of_le hfn with hlt | heq
    · omega
    · exfalso
      rw [heq] at h2
      linarith
  · exact hfn
  · rcases lt_or_eq_of_le hfn with hlt | heq
    · omega
    · exfalso
      rw [heq] at h1
      push_neg at h1
      linarith

theorem packI16_eq {v : ℤ} (h0 : 0 ≤ v) (h1 : v < 65536) :
    packI16 v = some [v.toNat % 256, v.toNat / 256] := by
  simp [packI16, h0, h1]

/-- **C6 counterexample.** At `hue = 359` the code's
`int(round(0x10000 * hue) / 360) % 0x10000` yields 65353 (bytes
`[73, 255]`), while the claimed formula `round(65536 * hue / 360) mod
65536` yields 65354 (bytes `[74, 255]`): the source rounds *before*
dividing by 360 and then truncates the quotient. -/
theorem set_color_hue_rounding_bug :
    set_color_payload 359 0 0 0 0 =
      some [0, 73, 255, 0, 0, 0, 0, 0, 0, 0, 0, 0, 0] ∧
    pyRound ((65536 * 359 : ℚ) / 360) % 65536 = 65354 ∧
    set_color_payload 359 0 0 0 0 ≠
      some [0, 74, 255, 0, 0, 0, 0, 0, 0, 0, 0, 0, 0] := by
  have h1 : pyRound (65536 * (359 : ℚ)) = 23527424 := by
    unfold pyRound
    norm_num
  have h2 : pyInt (((23527424 : ℤ) : ℚ) / 360) = 65353 := by
    unfold pyInt
    rw [if_pos (by positivity)]
    norm_num
  have h3 : pyRound (65535 * (0 : ℚ)) = 0 := by
    unfold pyRound
    norm_num
  have hmain : set_color_payload 359 0 0 0 0 =
      some [0, 73, 255, 0, 0, 0, 0, 0, 0, 0, 0, 0, 0] := by
    unfold set_color_payload
    rw [h1, h3, h2]
    decide
  refine ⟨hmain, ?_, ?_⟩
  · have h4 : pyRound ((65536 * 359 : ℚ) / 360) = 65354 := by
      unfold pyRound
      norm_num
    rw [h4]
    decide
  · intro hcontra
    exact absurd (hmain.symm.trans hcontra) (by decide)

/-- **C6 (amended).** For every hue, saturation and brightness in `[0, 1]`,
kelvin a u16 and duration a u32, the `set_color` payload is
`0 ‖ hue_raw(u16) ‖ saturation_raw(u16) ‖ brightness_raw(u16) ‖
kelvin(u16) ‖ duration(u32)` little-endian, where
`hue_raw = int(round(65536*hue) / 360) mod 65536` (Python `round`, i.e.
halves to even, applied *before* the division; `int` truncates),
`saturation_raw = round(65535*saturation)` and
`brightness_raw = round(65535*brightness)`. -/
theorem set_color_payload_layout (hue saturation brightness : ℚ)
    (kelvin duration : Nat)
    (hs0 : 0 ≤ saturation) (hs1 : saturation ≤ 1)
    (hb0 : 0 ≤ brightness) (hb1 : brightness ≤ 1)
    (hk : kelvin < 65536) (hd : duration < 4294967296) :
    set_color_payload hue saturation brightness kelvin duration =
      some ([0]
        ++ [(pyInt ((pyRound (65536 * hue) : ℚ) / 360) % 65536).toNat % 256,
            (pyInt ((pyRound (65536 * hue) : ℚ) / 360) % 65536).toNat / 256]
        ++ [(pyRound (65535 * saturation)).toNat % 256,
            (pyRound (65535 * saturation)).toNat / 256]
        ++ [(pyRound (65535 * brightness)).toNat % 256,
            (pyRound (65535 * brightness)).toNat / 256]
        ++ [kelvin % 256, kelvin / 256]
        ++ [duration % 256, duration / 256 % 256, duration / 65536 % 256,
            duration / 16777216]) := by
  have hr0 : 0 ≤ pyInt ((pyRound (65536 * hue) : ℚ) / 360) % 65536 :=
    Int.emod_nonneg _ (by norm_num)
  have hr1 : pyInt ((pyRound (65536 * hue) : ℚ) / 360) % 65536 < 65536 :=
    Int.emod_lt_of_pos _ (by norm_num)
  have hsn : 0 ≤ pyRound (65535 * saturation) :=
    pyRound_nonneg (mul_nonneg (by norm_num) hs0)
  have hsx : pyRound (65535 * saturation) ≤ 65535 :=
    pyRound_le (n := 65535) (by push_cast; linarith)
  have hbn : 0 ≤ pyRound (65535 * brightness) :=
    pyRound_nonneg (mul_nonneg (by norm_num) hb0)
  have hbx : pyRound (65535 * brightness) ≤ 65535 :=
    pyRound_le (n := 65535) (by push_cast; linarith)
  unfold set_color_payload
  rw [packU8_eq (by norm_num), packI16_eq hr0 hr1,
    packI16_eq hsn (by omega), packI16_eq hbn (by omega),
    packU16_eq hk, packU32_eq hd]

/-- Witness for the amended C6 at a concrete input. -/
theorem set_color_payload_layout_witness :
    set_color_payload 120 1 0 3500 1 =
      some ([0]
        ++ [(pyInt ((pyRound (65536 * (120 : ℚ)) : ℚ) / 360) % 65536).toNat % 256,
            (pyInt ((pyRound (65536 * (120 : ℚ)) : ℚ) / 360) % 65536).toNat / 256]
        ++ [(pyRound (65535 * (1 : ℚ))).toNat % 256,
            (pyRound (65535 * (1 : ℚ))).toNat / 256]
        ++ [(pyRound (65535 * (0 : ℚ))).toNat % 256,
            (pyRound (65535 * (0 : ℚ))).toNat / 256]
        ++ [3500 % 256, 3500 / 256]
        ++ [1 % 256, 1 / 256 % 256, 1 / 65536 % 256, 1 / 16777216]) :=
  set_color_payload_layout 120 1 0 3500 1 (by norm_num) (by norm_num)
    (by norm_num) (by norm_num) (by norm_num) (by norm_num)

end Okabe
